import Mathlib

/-!
Shallow embedding of the Audiobookshelf MCP server (Go, `main.go`) in Lean 4.

The program is a thin adapter: each MCP tool handler resolves a base URL and
bearer token (per-call argument with environment fallback), validates required
arguments, builds a request path (optionally selecting a sub-resource suffix),
issues a single HTTP GET or POST through `absGET`/`absPOST`, and wraps the
outcome as a textual tool result.

Modelling conventions:
* The environment (`os.Getenv`) is a function `String → String`; Go returns
  `""` for unset variables.
* The network is an oracle `HttpRequest → HttpAnswer`.  The transport
  functions return, besides their Go result, the list of HTTP requests they
  issued, so that "no network request is issued" is expressible.
* Go request construction (`http.NewRequestWithContext`) and body reading
  (`io.ReadAll`) are modelled as infallible: their failure paths depend on
  malformed URLs / IO conditions outside this embedding.
* JSON payloads (`map[string]interface{}`) are association lists in insertion
  order; a Go map has unique keys and `encoding/json` serialises all of them,
  so field membership/lookup is the faithful observable.
* Go `float64` arguments are modelled as `Rat`: the handlers only compare
  them (`duration > 0`) and embed them in payloads.
-/

namespace AbsMcp

/-- A primitive MCP argument value (string, number, or boolean). -/
inductive Value where
  | vstr (s : String)
  | vnum (x : Rat)
  | vbool (b : Bool)
deriving DecidableEq

/-- An MCP tool invocation: a name-keyed argument bag
(`mcp.CallToolRequest.Params.Arguments`). -/
structure CallToolRequest where
  arguments : List (String × Value)

/-- Argument lookup in the bag (`args[key]` on the Go map; keys are unique). -/
def CallToolRequest.getArg (r : CallToolRequest) (key : String) : Option Value :=
  List.lookup key r.arguments

def missingArgMsg (key : String) : String :=
  "required parameter " ++ key ++ " not found"

def wrongTypeMsg (key ty : String) : String :=
  "parameter " ++ key ++ " is not of type " ++ ty

/-- Modelled from the spec: the inbound argument accessor of the hosting MCP
library (`mcp-go`'s `CallToolRequest.GetString`, not part of this repository)
— "typed accessors that (a) return a default for absent optional fields".
Returns the value when present with string type, the default otherwise. -/
def CallToolRequest.GetString (r : CallToolRequest) (key dflt : String) : String :=
  match r.getArg key with
  | some (.vstr s) => s
  | _ => dflt

/-- Modelled from the spec: boolean accessor with default (`mcp-go`
`CallToolRequest.GetBool`). -/
def CallToolRequest.GetBool (r : CallToolRequest) (key : String) (dflt : Bool) : Bool :=
  match r.getArg key with
  | some (.vbool b) => b
  | _ => dflt

/-- Modelled from the spec: numeric accessor with default (`mcp-go`
`CallToolRequest.GetFloat`). -/
def CallToolRequest.GetFloat (r : CallToolRequest) (key : String) (dflt : Rat) : Rat :=
  match r.getArg key with
  | some (.vnum x) => x
  | _ => dflt

/-- Modelled from the spec: required-argument accessor (`mcp-go`
`CallToolRequest.RequireString`) — "(b) signal a distinguishable error for
absent required fields".  A present string value is returned unchanged
(an empty string is a present value); an absent key or a non-string value is
an error. -/
def CallToolRequest.RequireString (r : CallToolRequest) (key : String) :
    Except String String :=
  match r.getArg key with
  | some (.vstr s) => .ok s
  | some _ => .error (wrongTypeMsg key "string")
  | none => .error (missingArgMsg key)

/-- Modelled from the spec: required numeric accessor (`mcp-go`
`CallToolRequest.RequireFloat`). -/
def CallToolRequest.RequireFloat (r : CallToolRequest) (key : String) :
    Except String Rat :=
  match r.getArg key with
  | some (.vnum x) => .ok x
  | some _ => .error (wrongTypeMsg key "float64")
  | none => .error (missingArgMsg key)

/-- JSON values, as assembled by the handlers
(`map[string]interface{}` / slices / primitives fed to `json.Marshal`). -/
inductive Json where
  | jstr (s : String)
  | jnum (x : Rat)
  | jbool (b : Bool)
  | jarr (xs : List Json)
  | jobj (fields : List (String × Json))

inductive HttpMethod where
  | GET
  | POST
deriving DecidableEq

/-- One outbound HTTP request, as built by the transport functions. -/
structure HttpRequest where
  method : HttpMethod
  url : String
  headers : List (String × String)
  body : Option Json

/-- The upstream's reaction to one request: a response (numeric status code
plus the reason phrase of the status line, and a body), or a
connection/transport-level failure (`httpClient.Do` returning an error). -/
inductive HttpAnswer where
  | resp (status : Nat) (reason : String) (body : String)
  | transportErr (msg : String)

/-- Model of `http.Response.Status`: the status line text, e.g. `"404 Not Found"`. -/
def httpStatusString (status : Nat) (reason : String) : String :=
  toString status ++ " " ++ reason

/-- Go `strings.TrimSuffix`: drop one trailing occurrence of the suffix. -/
def trimSuffix (s suffix : String) : String :=
  if List.isSuffixOf suffix.data s.data then
    String.mk (s.data.take (s.data.length - suffix.data.length))
  else s

/-- Go `strings.Split` with the single-character separator `","`:
split around each comma; always at least one (possibly empty) segment. -/
def splitOnComma : List Char → List (List Char)
  | [] => [[]]
  | c :: rest =>
    if c = ',' then [] :: splitOnComma rest
    else
      match splitOnComma rest with
      | [] => [[c]]
      | seg :: segs => (c :: seg) :: segs

/-- Go `strings.Split(s, ",")` lifted to `String`. -/
def goSplitComma (s : String) : List String :=
  (splitOnComma s.data).map String.mk

/-- Go `strings.TrimSpace`: strip whitespace from both ends
(ASCII whitespace approximates `unicode.IsSpace`). -/
def goTrimSpace (s : String) : String :=
  String.mk (((s.data.dropWhile Char.isWhitespace).reverse.dropWhile
    Char.isWhitespace).reverse)

/-- Go `fmt.Sprintf` restricted to `%s` verbs: interleave the split format
with the arguments (every call site supplies exactly the right arity). -/
def interleaveFmt : List String → List String → String
  | [], _ => ""
  | [p], _ => p
  | p :: ps, [] => p ++ interleaveFmt ps []
  | p :: ps, a :: args => p ++ a ++ interleaveFmt ps args

/-- Split a format string around each `%s` verb (the only verb the source
uses), yielding the literal pieces between the verbs. -/
def splitFmt : List Char → List (List Char)
  | [] => [[]]
  | '%' :: 's' :: rest => [] :: splitFmt rest
  | c :: rest =>
    match splitFmt rest with
    | [] => [[c]]
    | seg :: segs => (c :: seg) :: segs

def sprintfS (format : String) (args : List String) : String :=
  interleaveFmt ((splitFmt format.data).map String.mk) args

/-- The `Authorization: Bearer <token>` header is attached when a token is present. -/
def authHeaders (token : String) : List (String × String) :=
  if token ≠ "" then [("Authorization", "Bearer " ++ token)] else []

/-- Transport `absGET`: build the full URL (trim one trailing slash from the base,
concatenate the path verbatim), attach the bearer header, issue the request;
non-2xx statuses become errors carrying status line and body; 2xx returns
the body.  The second component records the requests issued. -/
def absGET (world : HttpRequest → HttpAnswer) (baseURL token path : String) :
    Except String String × List HttpRequest :=
  let fullURL := trimSuffix baseURL "/" ++ path
  let req : HttpRequest :=
    { method := .GET, url := fullURL, headers := authHeaders token, body := none }
  match world req with
  | .transportErr msg => (.error ("call ABS API: " ++ msg), [req])
  | .resp status reason body =>
    if status < 200 || status ≥ 300 then
      (.error ("ABS API returned " ++ httpStatusString status reason ++ ": " ++ body),
       [req])
    else
      (.ok body, [req])

/-- Transport `absPOST`: like `absGET` but POST with an optional JSON payload.
The source sets `Content-Type: application/json` unconditionally, whether or
not a payload is present. -/
def absPOST (world : HttpRequest → HttpAnswer) (baseURL token path : String)
    (payload : Option Json) : Except String String × List HttpRequest :=
  let fullURL := trimSuffix baseURL "/" ++ path
  let req : HttpRequest :=
    { method := .POST, url := fullURL,
      headers := authHeaders token ++ [("Content-Type", "application/json")],
      body := payload }
  match world req with
  | .transportErr msg => (.error ("call ABS API: " ++ msg), [req])
  | .resp status reason body =>
    if status < 200 || status ≥ 300 then
      (.error ("ABS API returned " ++ httpStatusString status reason ++ ": " ++ body),
       [req])
    else
      (.ok body, [req])

/-- Resolver `getEnvOrParam`: explicit per-call argument wins; empty means absent. -/
def getEnvOrParam (paramValue : String) (env : String → String) (envKey : String) :
    String :=
  if paramValue ≠ "" then paramValue else env envKey

/-- Resolver `getABSConfig`: resolve base URL and token with environment fallback;
fail if either is empty; always append `/api` to the base URL. -/
def getABSConfig (env : String → String) (request : CallToolRequest) :
    Except String (String × String) :=
  let baseURLParam := request.GetString "base_url" ""
  let tokenParam := request.GetString "token" ""
  let baseURL := getEnvOrParam baseURLParam env "ABS_BASE_URL"
  let token := getEnvOrParam tokenParam env "ABS_API_KEY"
  if baseURL = "" then
    .error "base_url parameter or ABS_BASE_URL environment variable is required"
  else if token = "" then
    .error "token parameter or ABS_API_KEY environment variable is required"
  else
    .ok (baseURL ++ "/api", token)

/-- Model of `mcp.CallToolResult`, restricted to what the handlers produce: a single
text content and the error flag. -/
structure CallToolResult where
  isError : Bool
  text : String
deriving DecidableEq

def NewToolResultError (msg : String) : CallToolResult :=
  { isError := true, text := msg }

def NewToolResultText (t : String) : CallToolResult :=
  { isError := false, text := t }

/-- What a Go handler invocation produces: the tool result, the Go-level
`error` second return value (every handler returns `nil` there), and the
instrumented list of HTTP requests issued. -/
structure HandlerOutput where
  result : CallToolResult
  goError : Option String
  calls : List HttpRequest

def errOut (msg : String) : HandlerOutput :=
  { result := NewToolResultError msg, goError := none, calls := [] }

/-- The common tail of every Go handler: a transport error becomes
`NewToolResultError(err.Error())`, success becomes
`NewToolResultText(string(body))`; the Go-level error return is `nil`. -/
def wrapResult : Except String String × List HttpRequest → HandlerOutput
  | (.error e, calls) => { result := NewToolResultError e, goError := none, calls }
  | (.ok body, calls) => { result := NewToolResultText body, goError := none, calls }

/-- Builder `createSimpleGETHandler`: resolve config, GET `path`, wrap. -/
def createSimpleGETHandler (path : String) (env : String → String)
    (world : HttpRequest → HttpAnswer) (request : CallToolRequest) : HandlerOutput :=
  match getABSConfig env request with
  | .error e => errOut e
  | .ok (baseURL, token) =>
    wrapResult (absGET world baseURL token path)

/-- Builder `createRootGETHandler`: like the simple GET handler but resolves the
configuration inline and does not append `/api` (root-level endpoints). -/
def createRootGETHandler (path : String) (env : String → String)
    (world : HttpRequest → HttpAnswer) (request : CallToolRequest) : HandlerOutput :=
  let baseURLParam := request.GetString "base_url" ""
  let tokenParam := request.GetString "token" ""
  let baseURL := getEnvOrParam baseURLParam env "ABS_BASE_URL"
  let token := getEnvOrParam tokenParam env "ABS_API_KEY"
  if baseURL = "" then
    errOut "base_url parameter or ABS_BASE_URL environment variable is required"
  else if token = "" then
    errOut "token parameter or ABS_API_KEY environment variable is required"
  else
    wrapResult (absGET world baseURL token path)

/-- Builder `createGETByIDHandler`: resolve config, require the identifier,
substitute it into the template, GET, wrap. -/
def createGETByIDHandler (pathTemplate idParamName : String) (env : String → String)
    (world : HttpRequest → HttpAnswer) (request : CallToolRequest) : HandlerOutput :=
  match getABSConfig env request with
  | .error e => errOut e
  | .ok (baseURL, token) =>
    match request.RequireString idParamName with
    | .error e => errOut e
    | .ok id =>
      wrapResult (absGET world baseURL token (sprintfS pathTemplate [id]))

/-- The sub-resource scan of `createGETByIDWithSubResourceHandler`: walk the
declared flags in order; the first one true in the arguments appends
`/<flagName>` and the loop breaks; otherwise the path is unchanged. -/
def applySubResources (request : CallToolRequest) :
    List String → String → String
  | [], path => path
  | sub :: rest, path =>
    if request.GetBool sub false then sprintfS "%s/%s" [path, sub]
    else applySubResources request rest path

/-- Builder `createGETByIDWithSubResourceHandler`: GET-by-ID plus the ordered
sub-resource flag scan. -/
def createGETByIDWithSubResourceHandler (basePath idParamName : String)
    (subResources : List String) (env : String → String)
    (world : HttpRequest → HttpAnswer) (request : CallToolRequest) : HandlerOutput :=
  match getABSConfig env request with
  | .error e => errOut e
  | .ok (baseURL, token) =>
    match request.RequireString idParamName with
    | .error e => errOut e
    | .ok id =>
      let path := applySubResources request subResources (sprintfS basePath [id])
      wrapResult (absGET world baseURL token path)

/-- The path selection of the `me` tool handler: branch among the mutually
exclusive sub-views (sessions, stats, in-progress, item/episode progress) with
first-match-wins precedence; the progress-episode branch is nested inside a
non-empty `progress_item_id`. -/
def mePath (request : CallToolRequest) : String :=
  if request.GetBool "listening-sessions" false then "/me/listening-sessions"
  else if request.GetBool "listening-stats" false then "/me/listening-stats"
  else if request.GetBool "items-in-progress" false then "/me/items-in-progress"
  else
    let progressItemID := request.GetString "progress_item_id" ""
    if progressItemID ≠ "" then
      let progressEpisodeID := request.GetString "progress_episode_id" ""
      if progressEpisodeID ≠ "" then
        sprintfS "/me/progress/%s/%s" [progressItemID, progressEpisodeID]
      else
        sprintfS "/me/progress/%s" [progressItemID]
    else "/me"

/-- The `me` tool handler: resolve config, select the sub-view path, GET. -/
def meHandler (env : String → String) (world : HttpRequest → HttpAnswer)
    (request : CallToolRequest) : HandlerOutput :=
  match getABSConfig env request with
  | .error e => errOut e
  | .ok (baseURL, token) =>
    wrapResult (absGET world baseURL token (mePath request))

/-- The folder list POSTed by `create_library`: split the comma-separated
string, trim each segment, wrap as `{"fullPath": ...}` objects. -/
def libraryFolders (foldersStr : String) : List Json :=
  (goSplitComma foldersStr).map fun path => Json.jobj [("fullPath", Json.jstr (goTrimSpace path))]

/-- The JSON body assembled by `create_library`: the required fields plus
`icon`/`provider` only when provided non-empty. -/
def createLibraryPayload (request : CallToolRequest)
    (name foldersStr mediaType : String) : List (String × Json) :=
  [("name", Json.jstr name),
   ("folders", Json.jarr (libraryFolders foldersStr)),
   ("mediaType", Json.jstr mediaType)]
  ++ (if request.GetString "icon" "" ≠ "" then
        [("icon", Json.jstr (request.GetString "icon" ""))]
      else [])
  ++ (if request.GetString "provider" "" ≠ "" then
        [("provider", Json.jstr (request.GetString "provider" ""))]
      else [])

/-- The `create_library` tool handler: require `name`, `folders`,
`media_type`; split the folder string; include `icon`/`provider` only when
non-empty; POST to `/libraries`. -/
def createLibraryHandler (env : String → String) (world : HttpRequest → HttpAnswer)
    (request : CallToolRequest) : HandlerOutput :=
  match getABSConfig env request with
  | .error e => errOut e
  | .ok (baseURL, token) =>
    match request.RequireString "name" with
    | .error e => errOut e
    | .ok name =>
      match request.RequireString "folders" with
      | .error e => errOut e
      | .ok foldersStr =>
        match request.RequireString "media_type" with
        | .error e => errOut e
        | .ok mediaType =>
          let payload := createLibraryPayload request name foldersStr mediaType
          wrapResult (absPOST world baseURL token "/libraries" (some (Json.jobj payload)))

/-- The JSON body assembled by `update_progress`: always `libraryItemId` and
`currentTime`; `duration` only when positive (the accessor default `0` means
an absent argument never qualifies); `isFinished` only when true;
`episodeId` only when non-empty. -/
def updateProgressPayload (request : CallToolRequest) (itemID : String)
    (progress : Rat) : List (String × Json) :=
  [("libraryItemId", Json.jstr itemID), ("currentTime", Json.jnum progress)]
  ++ (if request.GetFloat "duration" 0 > 0 then
        [("duration", Json.jnum (request.GetFloat "duration" 0))]
      else [])
  ++ (if request.GetBool "is_finished" false then [("isFinished", Json.jbool true)] else [])
  ++ (if request.GetString "episode_id" "" ≠ "" then
        [("episodeId", Json.jstr (request.GetString "episode_id" ""))]
      else [])

/-- The `update_progress` tool handler: require `item_id` and `progress`,
assemble the payload, POST to `/me/progress`. -/
def updateProgressHandler (env : String → String) (world : HttpRequest → HttpAnswer)
    (request : CallToolRequest) : HandlerOutput :=
  match getABSConfig env request with
  | .error e => errOut e
  | .ok (baseURL, token) =>
    match request.RequireString "item_id" with
    | .error e => errOut e
    | .ok itemID =>
      match request.RequireFloat "progress" with
      | .error e => errOut e
      | .ok progress =>
        let payload := updateProgressPayload request itemID progress
        wrapResult (absPOST world baseURL token "/me/progress" (some (Json.jobj payload)))

/-- The `create_backup` tool handler: POST to `/backups` with a nil payload. -/
def createBackupHandler (env : String → String) (world : HttpRequest → HttpAnswer)
    (request : CallToolRequest) : HandlerOutput :=
  match getABSConfig env request with
  | .error e => errOut e
  | .ok (baseURL, token) =>
    wrapResult (absPOST world baseURL token "/backups" none)

/-- The `check_podcast_episodes` tool handler: require `podcast_id`, POST to
`/podcasts/<id>/check-new-episodes` with a nil payload. -/
def checkPodcastEpisodesHandler (env : String → String) (world : HttpRequest → HttpAnswer)
    (request : CallToolRequest) : HandlerOutput :=
  match getABSConfig env request with
  | .error e => errOut e
  | .ok (baseURL, token) =>
    match request.RequireString "podcast_id" with
    | .error e => errOut e
    | .ok podcastID =>
      wrapResult (absPOST world baseURL token (sprintfS "/podcasts/%s/check-new-episodes" [podcastID]) none)

/-- The declared sub-resource flags of the `library` tool, in source order. -/
def librarySubResources : List String :=
  ["items", "authors", "series", "collections", "playlists", "personalized",
   "filterdata", "stats", "search", "episode-downloads", "recent-episodes"]

/-- Registration of the `library` tool. -/
def libraryHandler : (String → String) → (HttpRequest → HttpAnswer) →
    CallToolRequest → HandlerOutput :=
  createGETByIDWithSubResourceHandler "/libraries/%s" "library_id" librarySubResources

/-- Registration of the `item` tool. -/
def itemHandler : (String → String) → (HttpRequest → HttpAnswer) →
    CallToolRequest → HandlerOutput :=
  createGETByIDWithSubResourceHandler "/items/%s" "item_id" ["cover", "tone-object"]

/-- Registration of the `user` tool. -/
def userHandler : (String → String) → (HttpRequest → HttpAnswer) →
    CallToolRequest → HandlerOutput :=
  createGETByIDWithSubResourceHandler "/users/%s" "user_id"
    ["listening-sessions", "listening-stats"]

/-- Registration of the `ping` tool (root-level, no `/api`). -/
def pingHandler : (String → String) → (HttpRequest → HttpAnswer) →
    CallToolRequest → HandlerOutput :=
  createRootGETHandler "/ping"

/-- Registration of the `healthcheck` tool (root-level, no `/api`). -/
def healthcheckHandler : (String → String) → (HttpRequest → HttpAnswer) →
    CallToolRequest → HandlerOutput :=
  createRootGETHandler "/healthcheck"

/-- Registration of the `status` tool (root-level, no `/api`). -/
def statusHandler : (String → String) → (HttpRequest → HttpAnswer) →
    CallToolRequest → HandlerOutput :=
  createRootGETHandler "/status"

/-- Registration of the `libraries` tool. -/
def librariesHandler : (String → String) → (HttpRequest → HttpAnswer) →
    CallToolRequest → HandlerOutput :=
  createSimpleGETHandler "/libraries"

/-! ### Concrete inputs used by witnesses and counterexamples -/

/-- An environment with neither `ABS_BASE_URL` nor `ABS_API_KEY` set. -/
def envEmpty : String → String := fun _ => ""

/-- An upstream that always answers 200 with body `{}`. -/
def worldOk : HttpRequest → HttpAnswer := fun _ => .resp 200 "OK" "{}"

/-- A `library` invocation with two sub-resource flags set (`series` declared
before `collections`). -/
def reqLibTwoFlags : CallToolRequest :=
  ⟨[("base_url", .vstr "http://abs"), ("token", .vstr "tok"),
    ("library_id", .vstr "lib123"),
    ("series", .vbool true), ("collections", .vbool true)]⟩

/-- Invocation carrying only credentials. -/
def reqAuthOnly : CallToolRequest :=
  ⟨[("base_url", .vstr "http://abs"), ("token", .vstr "tok")]⟩

/-- Invocation whose `library_id` is present but the empty string. -/
def reqEmptyId : CallToolRequest :=
  ⟨[("base_url", .vstr "http://abs"), ("token", .vstr "tok"),
    ("library_id", .vstr "")]⟩

/-- A `create_library` invocation from the spec's concrete scenario. -/
def reqCreateLib : CallToolRequest :=
  ⟨[("base_url", .vstr "http://abs"), ("token", .vstr "tok"),
    ("name", .vstr "A"), ("folders", .vstr "/a, /b"), ("media_type", .vstr "book")]⟩

/-- A `create_library` invocation with a whitespace-only `folders` value. -/
def reqCreateLibBlank : CallToolRequest :=
  ⟨[("base_url", .vstr "http://abs"), ("token", .vstr "tok"),
    ("name", .vstr "B"), ("folders", .vstr "  "), ("media_type", .vstr "book")]⟩

/-- An `update_progress` invocation exercising every optional field. -/
def reqProgress : CallToolRequest :=
  ⟨[("base_url", .vstr "http://abs"), ("token", .vstr "tok"),
    ("item_id", .vstr "it1"), ("progress", .vnum 30),
    ("duration", .vnum 100), ("is_finished", .vbool true),
    ("episode_id", .vstr "ep7")]⟩

/-- A `me` invocation with a dangling `progress_episode_id` and no other
sub-view selector. -/
def reqMeEpisodeOnly : CallToolRequest :=
  ⟨[("base_url", .vstr "http://abs"), ("token", .vstr "tok"),
    ("progress_episode_id", .vstr "ep9")]⟩

/-! ### Helper lemmas -/

theorem sprintf_two (p s : String) : sprintfS "%s/%s" [p, s] = p ++ "/" ++ s := by
  simp [sprintfS, splitFmt, interleaveFmt, String.append_assoc]

/-- The suffix `/api` never ends in a slash, so the transport's trailing-slash trim
leaves a `<base>/api` URL untouched. -/
theorem trimSuffix_append_api (b : String) : trimSuffix (b ++ "/api") "/" = b ++ "/api" := by
  unfold trimSuffix
  rw [if_neg]
  rw [String.data_append]
  show ¬ List.isSuffixOf ['/'] (b.data ++ ['/', 'a', 'p', 'i']) = true
  simp [List.isSuffixOf, List.reverse_append, List.isPrefixOf_cons₂]

/-- Both transport functions issue exactly one request; its fields. -/
theorem absGET_calls (world : HttpRequest → HttpAnswer) (baseURL token path : String) :
    (absGET world baseURL token path).2 =
      [{ method := .GET, url := trimSuffix baseURL "/" ++ path,
         headers := authHeaders token, body := none }] := by
  unfold absGET
  cases h : world { method := .GET, url := trimSuffix baseURL "/" ++ path,
                    headers := authHeaders token, body := none } with
  | transportErr msg => simp [h]
  | resp status reason body =>
    simp only [h]
    split <;> rfl

theorem absPOST_calls (world : HttpRequest → HttpAnswer) (baseURL token path : String)
    (payload : Option Json) :
    (absPOST world baseURL token path payload).2 =
      [{ method := .POST, url := trimSuffix baseURL "/" ++ path,
         headers := authHeaders token ++ [("Content-Type", "application/json")],
         body := payload }] := by
  unfold absPOST
  cases h : world { method := .POST, url := trimSuffix baseURL "/" ++ path,
                    headers := authHeaders token ++ [("Content-Type", "application/json")],
                    body := payload } with
  | transportErr msg => simp [h]
  | resp status reason body =>
    simp only [h]
    split <;> rfl

/-- The ordered sub-resource scan selects exactly the first declared flag that
is true in the arguments. -/
theorem applySubResources_eq_find (request : CallToolRequest) (subs : List String)
    (path : String) :
    applySubResources request subs path =
      match subs.find? (fun sub => request.GetBool sub false) with
      | some sub => path ++ "/" ++ sub
      | none => path := by
  induction subs with
  | nil => rfl
  | cons sub rest ih =>
    by_cases h : request.GetBool sub false
    · simp [applySubResources, h, sprintf_two]
    · simp [applySubResources, h, ih]

/-- Go `strings.Split` never yields an empty list. -/
theorem splitOnComma_ne_nil (l : List Char) : splitOnComma l ≠ [] := by
  induction l with
  | nil => simp [splitOnComma]
  | cons c rest ih =>
    by_cases h : c = ','
    · simp [splitOnComma, h]
    · simp only [splitOnComma, if_neg h]
      cases hs : splitOnComma rest with
      | nil => simp
      | cons seg segs => simp

/-- Splitting a comma-free list yields the single segment. -/
theorem splitOnComma_no_comma (l : List Char) (h : ∀ c ∈ l, c ≠ ',') :
    splitOnComma l = [l] := by
  induction l with
  | nil => rfl
  | cons c rest ih =>
    have hc : c ≠ ',' := h c (List.mem_cons_self c rest)
    have hrest : splitOnComma rest = [rest] :=
      ih fun x hx => h x (List.mem_cons_of_mem c hx)
    simp [splitOnComma, hc, hrest]

/-- One segment per comma, plus one. -/
theorem splitOnComma_length (l : List Char) :
    (splitOnComma l).length = l.count ',' + 1 := by
  induction l with
  | nil => simp [splitOnComma]
  | cons c rest ih =>
    by_cases h : c = ','
    · simp [splitOnComma, h, List.count_cons, ih]
    · simp only [splitOnComma, if_neg h]
      cases hs : splitOnComma rest with
      | nil => exact absurd hs (splitOnComma_ne_nil rest)
      | cons seg segs =>
        have := ih
        rw [hs] at this
        simp only [List.length_cons] at this ⊢
        rw [List.count_cons]
        simp [h, ← this]

/-- Trimming an all-whitespace string leaves the empty string. -/
theorem goTrimSpace_all_whitespace (s : String) (h : s.data.all Char.isWhitespace) :
    goTrimSpace s = "" := by
  unfold goTrimSpace
  have h1 : s.data.dropWhile Char.isWhitespace = [] := by
    rw [List.dropWhile_eq_nil_iff]
    intro x hx
    exact List.all_eq_true.mp h x hx
  rw [h1]
  rfl

theorem wrapResult_calls (p : Except String String × List HttpRequest) :
    (wrapResult p).calls = p.2 := by
  rcases p with ⟨res, calls⟩
  cases res <;> rfl

theorem wrapResult_goError (p : Except String String × List HttpRequest) :
    (wrapResult p).goError = none := by
  rcases p with ⟨res, calls⟩
  cases res <;> rfl

theorem wrapResult_result (p : Except String String × List HttpRequest) :
    (wrapResult p).result =
      match p.1 with
      | .error e => NewToolResultError e
      | .ok body => NewToolResultText body := by
  rcases p with ⟨res, calls⟩
  cases res <;> rfl

/-! ### Claims -/

/-- C1: for every handler built by the sub-resource builder, when the
required identifier is present, the single issued request's path is the
identifier-substituted base path with `/<flagName>` appended for the
earliest-declared flag that is true in the arguments (`List.find?` in
declaration order); scanning stops at that first match even when
later-declared flags are also true, and with no true flag the path is
exactly the base identifier path. -/
theorem subResource_first_true_flag
    (basePath idParamName : String) (subResources : List String)
    (env : String → String) (world : HttpRequest → HttpAnswer)
    (request : CallToolRequest) (baseURL token id : String)
    (hcfg : getABSConfig env request = .ok (baseURL, token))
    (hid : request.RequireString idParamName = .ok id) :
    (createGETByIDWithSubResourceHandler basePath idParamName subResources
        env world request).calls =
      [{ method := .GET,
         url := trimSuffix baseURL "/" ++
           (match subResources.find? (fun sub => request.GetBool sub false) with
            | some sub => sprintfS basePath [id] ++ "/" ++ sub
            | none => sprintfS basePath [id]),
         headers := authHeaders token, body := none }] := by
  unfold createGETByIDWithSubResourceHandler
  rw [hcfg]
  dsimp only
  rw [hid]
  dsimp only
  rw [wrapResult_calls, absGET_calls, applySubResources_eq_find]

/-- Witness for C1: a `library` call with both `series` and `collections`
true selects the earlier-declared `series` suffix. -/
theorem subResource_first_true_flag_witness :
    reqLibTwoFlags.GetBool "series" false = true ∧
    reqLibTwoFlags.GetBool "collections" false = true ∧
    (createGETByIDWithSubResourceHandler "/libraries/%s" "library_id"
        librarySubResources envEmpty worldOk reqLibTwoFlags).calls =
      [{ method := .GET, url := "http://abs/api/libraries/lib123/series",
         headers := [("Authorization", "Bearer tok")], body := none }] :=
  ⟨rfl, rfl,
    (subResource_first_true_flag "/libraries/%s" "library_id" librarySubResources
      envEmpty worldOk reqLibTwoFlags "http://abs/api" "tok" "lib123" rfl rfl).trans rfl⟩

/-- C2: whenever the resolved base URL and token are non-empty, the
configuration resolver used by every resource-class tool yields exactly
`<resolved base>/api`, and a resource-class GET goes to
`<resolved base>/api<path>`, while the root-level handler used by the
health/status tools (`ping`, `healthcheck`, `status`) appends no `/api` and
passes the resolved base URL to the transport as-is (the transport's uniform
trailing-slash trim is the only normalization). -/
theorem api_suffix_resource_vs_root (path : String) (env : String → String)
    (world : HttpRequest → HttpAnswer) (request : CallToolRequest)
    (hbase : getEnvOrParam (request.GetString "base_url" "") env "ABS_BASE_URL" ≠ "")
    (htok : getEnvOrParam (request.GetString "token" "") env "ABS_API_KEY" ≠ "") :
    getABSConfig env request =
      .ok (getEnvOrParam (request.GetString "base_url" "") env "ABS_BASE_URL" ++ "/api",
           getEnvOrParam (request.GetString "token" "") env "ABS_API_KEY") ∧
    (createSimpleGETHandler path env world request).calls =
      [{ method := .GET,
         url := getEnvOrParam (request.GetString "base_url" "") env "ABS_BASE_URL"
                  ++ "/api" ++ path,
         headers := authHeaders
           (getEnvOrParam (request.GetString "token" "") env "ABS_API_KEY"),
         body := none }] ∧
    (createRootGETHandler path env world request).calls =
      [{ method := .GET,
         url := trimSuffix
                  (getEnvOrParam (request.GetString "base_url" "") env "ABS_BASE_URL") "/"
                  ++ path,
         headers := authHeaders
           (getEnvOrParam (request.GetString "token" "") env "ABS_API_KEY"),
         body := none }] := by
  have hcfg : getABSConfig env request =
      .ok (getEnvOrParam (request.GetString "base_url" "") env "ABS_BASE_URL" ++ "/api",
           getEnvOrParam (request.GetString "token" "") env "ABS_API_KEY") := by
    unfold getABSConfig
    dsimp only
    rw [if_neg hbase, if_neg htok]
  refine ⟨hcfg, ?_, ?_⟩
  · unfold createSimpleGETHandler
    rw [hcfg]
    dsimp only
    rw [wrapResult_calls, absGET_calls, trimSuffix_append_api]
  · unfold createRootGETHandler
    dsimp only
    rw [if_neg hbase, if_neg htok, wrapResult_calls, absGET_calls]

/-- Witness for C2: with base `http://abs`, the `libraries` path goes to
`http://abs/api/libraries` while the root-level `/ping` goes to
`http://abs/ping`. -/
theorem api_suffix_resource_vs_root_witness :
    getEnvOrParam (reqAuthOnly.GetString "base_url" "") envEmpty "ABS_BASE_URL"
      = "http://abs" ∧
    (createSimpleGETHandler "/libraries" envEmpty worldOk reqAuthOnly).calls =
      [{ method := .GET, url := "http://abs/api/libraries",
         headers := [("Authorization", "Bearer tok")], body := none }] ∧
    (createRootGETHandler "/ping" envEmpty worldOk reqAuthOnly).calls =
      [{ method := .GET, url := "http://abs/ping",
         headers := [("Authorization", "Bearer tok")], body := none }] :=
  ⟨rfl,
   ((api_suffix_resource_vs_root "/libraries" envEmpty worldOk reqAuthOnly
      (by decide) (by decide)).2.1).trans rfl,
   ((api_suffix_resource_vs_root "/ping" envEmpty worldOk reqAuthOnly
      (by decide) (by decide)).2.2).trans rfl⟩

/-- C3 (amended): if the required identifier argument is absent from the
argument bag (and the configuration resolves), both GET-by-ID builders
return a missing-argument failure and issue no network request; an
identifier present as the empty string, by contrast, passes validation and
the request is issued with the empty identifier substituted (see the
counterexample). -/
theorem missing_required_arg_no_request
    (pathTemplate basePath idParamName : String) (subResources : List String)
    (env : String → String) (world : HttpRequest → HttpAnswer)
    (request : CallToolRequest) (baseURL token : String)
    (hcfg : getABSConfig env request = .ok (baseURL, token))
    (habs : request.getArg idParamName = none) :
    createGETByIDHandler pathTemplate idParamName env world request =
      { result := NewToolResultError (missingArgMsg idParamName),
        goError := none, calls := [] } ∧
    createGETByIDWithSubResourceHandler basePath idParamName subResources
        env world request =
      { result := NewToolResultError (missingArgMsg idParamName),
        goError := none, calls := [] } := by
  have hreq : request.RequireString idParamName = .error (missingArgMsg idParamName) := by
    unfold CallToolRequest.RequireString
    rw [habs]
  constructor
  · unfold createGETByIDHandler
    rw [hcfg]
    dsimp only
    rw [hreq]
    rfl
  · unfold createGETByIDWithSubResourceHandler
    rw [hcfg]
    dsimp only
    rw [hreq]
    rfl

/-- Witness for the amended C3: `library_id` absent yields the
missing-argument failure with zero requests. -/
theorem missing_required_arg_no_request_witness :
    reqAuthOnly.getArg "library_id" = none ∧
    createGETByIDHandler "/libraries/%s" "library_id" envEmpty worldOk reqAuthOnly =
      { result := NewToolResultError (missingArgMsg "library_id"),
        goError := none, calls := [] } :=
  ⟨rfl,
   (missing_required_arg_no_request "/libraries/%s" "/libraries/%s" "library_id" []
     envEmpty worldOk reqAuthOnly "http://abs/api" "tok" rfl rfl).1⟩

/-- C3 counterexample: with `library_id` present but equal to the empty
string, the GET-by-ID handler does not fail and does issue a network
request — for the identifier-less path `/libraries/` — and returns the
upstream body as a success, contradicting the claim that an empty string
yields a missing-argument failure with no network request. -/
theorem empty_string_id_issues_request :
    reqEmptyId.getArg "library_id" = some (.vstr "") ∧
    (createGETByIDHandler "/libraries/%s" "library_id" envEmpty worldOk reqEmptyId).calls =
      [{ method := .GET, url := "http://abs/api/libraries/",
         headers := [("Authorization", "Bearer tok")], body := none }] ∧
    (createGETByIDHandler "/libraries/%s" "library_id" envEmpty worldOk reqEmptyId).result =
      { isError := false, text := "{}" } :=
  ⟨rfl, rfl, rfl⟩

/-- C4: for every successful GET (configuration resolved, upstream status in
[200, 300)), the transport returns exactly the upstream body, and the
handler's success result text is that body, unmodified. -/
theorem get_success_body_verbatim (path : String) (env : String → String)
    (request : CallToolRequest) (baseURL token : String)
    (hcfg : getABSConfig env request = .ok (baseURL, token))
    (status : Nat) (reason body : String) (h2 : 200 ≤ status) (h3 : status < 300) :
    (absGET (fun _ => .resp status reason body) baseURL token path).1 = .ok body ∧
    (createSimpleGETHandler path env (fun _ => .resp status reason body) request).result =
      { isError := false, text := body } := by
  have hnot : ¬ ((decide (status < 200) || decide (status ≥ 300)) = true) := by
    simp only [Bool.or_eq_true, decide_eq_true_eq]
    omega
  have habs : (absGET (fun _ => .resp status reason body) baseURL token path).1 = .ok body := by
    unfold absGET
    dsimp only
    rw [if_neg hnot]
  refine ⟨habs, ?_⟩
  unfold createSimpleGETHandler
  rw [hcfg]
  dsimp only
  rw [wrapResult_result, habs]
  rfl

/-- Witness for C4: a 200 response with body `hello` yields the success text
`hello`. -/
theorem get_success_body_verbatim_witness :
    (createSimpleGETHandler "/libraries" envEmpty
        (fun _ => .resp 200 "OK" "hello") reqAuthOnly).result =
      { isError := false, text := "hello" } :=
  (get_success_body_verbatim "/libraries" envEmpty reqAuthOnly "http://abs/api" "tok"
    rfl 200 "OK" "hello" (by decide) (by decide)).2

/-- C5: for every upstream response with status outside [200, 300), both
transport functions return an error whose message contains the numeric
status and the upstream body (never the body as a success), and the handler
converts it into a textual failure result with a `nil` Go-level error. -/
theorem non2xx_error_contains_status_and_body (path : String) (env : String → String)
    (request : CallToolRequest) (baseURL token : String) (payload : Option Json)
    (hcfg : getABSConfig env request = .ok (baseURL, token))
    (status : Nat) (reason body : String) (hbad : status < 200 ∨ 300 ≤ status) :
    (absGET (fun _ => .resp status reason body) baseURL token path).1 =
      .error ("ABS API returned " ++ httpStatusString status reason ++ ": " ++ body) ∧
    (absPOST (fun _ => .resp status reason body) baseURL token path payload).1 =
      .error ("ABS API returned " ++ httpStatusString status reason ++ ": " ++ body) ∧
    (createSimpleGETHandler path env (fun _ => .resp status reason body) request).result =
      { isError := true,
        text := "ABS API returned " ++ httpStatusString status reason ++ ": " ++ body } ∧
    (createSimpleGETHandler path env (fun _ => .resp status reason body) request).goError
      = none ∧
    (toString status).data <:+:
      ("ABS API returned " ++ httpStatusString status reason ++ ": " ++ body).data ∧
    body.data <:+:
      ("ABS API returned " ++ httpStatusString status reason ++ ": " ++ body).data := by
  have hcond : (decide (status < 200) || decide (status ≥ 300)) = true := by
    simp only [Bool.or_eq_true, decide_eq_true_eq]
    omega
  have hget : (absGET (fun _ => .resp status reason body) baseURL token path).1 =
      .error ("ABS API returned " ++ httpStatusString status reason ++ ": " ++ body) := by
    unfold absGET
    dsimp only
    rw [if_pos hcond]
  have hpost : (absPOST (fun _ => .resp status reason body) baseURL token path payload).1 =
      .error ("ABS API returned " ++ httpStatusString status reason ++ ": " ++ body) := by
    unfold absPOST
    dsimp only
    rw [if_pos hcond]
  have hdata : ("ABS API returned " ++ httpStatusString status reason ++ ": " ++ body).data =
      "ABS API returned ".data ++ ((toString status).data ++ (" ".data ++ (reason.data ++
        (": ".data ++ body.data)))) := by
    simp [httpStatusString, String.data_append, List.append_assoc]
  refine ⟨hget, hpost, ?_, ?_, ?_, ?_⟩
  · unfold createSimpleGETHandler
    rw [hcfg]
    dsimp only
    rw [wrapResult_result, hget]
    rfl
  · unfold createSimpleGETHandler
    rw [hcfg]
    dsimp only
    rw [wrapResult_goError]
  · exact ⟨"ABS API returned ".data,
      " ".data ++ (reason.data ++ (": ".data ++ body.data)),
      by rw [hdata]; simp [List.append_assoc]⟩
  · exact ⟨"ABS API returned ".data ++ ((toString status).data ++ (" ".data ++
      (reason.data ++ ": ".data))), [],
      by rw [hdata]; simp [List.append_assoc]⟩

/-- Witness for C5: a 404 with body `nope` yields the failure text
`ABS API returned 404 Not Found: nope`. -/
theorem non2xx_error_witness :
    (createSimpleGETHandler "/libraries" envEmpty
        (fun _ => .resp 404 "Not Found" "nope") reqAuthOnly).result =
      { isError := true, text := "ABS API returned 404 Not Found: nope" } :=
  ((non2xx_error_contains_status_and_body "/libraries" envEmpty reqAuthOnly
      "http://abs/api" "tok" none rfl 404 "Not Found" "nope"
      (by decide)).2.2.1).trans (by decide)

/-- C6 (amended): `Content-Type: application/json` is never attached to a
GET request, and is attached to every POST request — even when the payload
is nil, since the source sets the header unconditionally in `absPOST`. -/
theorem content_type_post_always_get_never
    (world : HttpRequest → HttpAnswer) (baseURL token path : String)
    (payload : Option Json) :
    (absGET world baseURL token path).2 =
      [{ method := .GET, url := trimSuffix baseURL "/" ++ path,
         headers := authHeaders token, body := none }] ∧
    (∀ v, ("Content-Type", v) ∉ authHeaders token) ∧
    (absPOST world baseURL token path payload).2 =
      [{ method := .POST, url := trimSuffix baseURL "/" ++ path,
         headers := authHeaders token ++ [("Content-Type", "application/json")],
         body := payload }] ∧
    ("Content-Type", "application/json") ∈
      authHeaders token ++ [("Content-Type", "application/json")] := by
  refine ⟨absGET_calls world baseURL token path, ?_,
    absPOST_calls world baseURL token path payload, ?_⟩
  · intro v hmem
    unfold authHeaders at hmem
    by_cases h : token ≠ ""
    · rw [if_pos h] at hmem
      rw [List.mem_singleton] at hmem
      have hfst : ("Content-Type" : String) = "Authorization" := congrArg Prod.fst hmem
      exact absurd hfst (by decide)
    · rw [if_neg h] at hmem
      exact List.not_mem_nil _ hmem
  · exact List.mem_append_right _ (List.mem_singleton.mpr rfl)

/-- Witness for the amended C6: a nil-payload POST to `/backups` carries
`Content-Type: application/json`; the corresponding GET headers never do. -/
theorem content_type_post_always_get_never_witness :
    (absPOST worldOk "http://abs/api" "tok" "/backups" none).2 =
      [{ method := .POST, url := "http://abs/api/backups",
         headers := [("Authorization", "Bearer tok"), ("Content-Type", "application/json")],
         body := none }] ∧
    ("Content-Type", "application/json") ∈
      ([("Authorization", "Bearer tok"), ("Content-Type", "application/json")] :
        List (String × String)) ∧
    ("Content-Type", "application/json") ∉
      ([("Authorization", "Bearer tok")] : List (String × String)) := by
  have h := content_type_post_always_get_never worldOk "http://abs/api" "tok" "/backups" none
  exact ⟨h.2.2.1.trans rfl, h.2.2.2, h.2.1 "application/json"⟩

/-- C6 counterexample: the `create_backup` tool POSTs a nil payload, yet the
issued request's headers do contain `Content-Type: application/json`,
contradicting the claim that a POST with nil payload omits the header. -/
theorem content_type_nil_payload_counterexample :
    (createBackupHandler envEmpty worldOk reqAuthOnly).calls =
      [{ method := .POST, url := "http://abs/api/backups",
         headers := [("Authorization", "Bearer tok"), ("Content-Type", "application/json")],
         body := none }] ∧
    ("Content-Type", "application/json") ∈
      ([("Authorization", "Bearer tok"), ("Content-Type", "application/json")] :
        List (String × String)) :=
  ⟨rfl, by decide⟩

/-- A positive `GetFloat` with default `0` means the caller provided the
argument as a positive number. -/
theorem getFloat_pos_means_provided (request : CallToolRequest) (key : String)
    (h : 0 < request.GetFloat key 0) :
    ∃ x, request.getArg key = some (.vnum x) ∧ 0 < x := by
  unfold CallToolRequest.GetFloat at h
  revert h
  cases request.getArg key with
  | none =>
    intro h
    simp at h
  | some v =>
    cases v with
    | vstr s =>
      intro h
      simp at h
    | vnum x =>
      intro h
      exact ⟨x, rfl, h⟩
    | vbool b =>
      intro h
      simp at h

/-- C7: for every `create_library` call with `name`, `folders` and
`media_type` present, the handler POSTs a single request to `/libraries`
whose body's `folders` field is obtained by splitting the folders string on
commas and trimming whitespace from each segment. -/
theorem create_library_splits_folders
    (env : String → String) (world : HttpRequest → HttpAnswer)
    (request : CallToolRequest) (baseURL token name foldersStr mediaType : String)
    (hcfg : getABSConfig env request = .ok (baseURL, token))
    (hname : request.RequireString "name" = .ok name)
    (hfold : request.RequireString "folders" = .ok foldersStr)
    (hmedia : request.RequireString "media_type" = .ok mediaType) :
    (createLibraryHandler env world request).calls =
      [{ method := .POST, url := trimSuffix baseURL "/" ++ "/libraries",
         headers := authHeaders token ++ [("Content-Type", "application/json")],
         body := some (.jobj (createLibraryPayload request name foldersStr mediaType)) }] ∧
    List.lookup "folders" (createLibraryPayload request name foldersStr mediaType) =
      some (.jarr ((goSplitComma foldersStr).map fun p =>
        Json.jobj [("fullPath", Json.jstr (goTrimSpace p))])) := by
  constructor
  · unfold createLibraryHandler
    rw [hcfg]
    dsimp only
    rw [hname]
    dsimp only
    rw [hfold]
    dsimp only
    rw [hmedia]
    dsimp only
    rw [wrapResult_calls, absPOST_calls]
  · unfold createLibraryPayload
    simp only [List.append_assoc, List.cons_append]
    simp [List.lookup_cons, libraryFolders]

/-- Witness for C7: the spec's concrete scenario
`{name: A, folders: "/a, /b", media_type: book}` POSTs exactly two trimmed
folder entries `/a` and `/b`. -/
theorem create_library_splits_folders_witness :
    (createLibraryHandler envEmpty worldOk reqCreateLib).calls =
      [{ method := .POST, url := "http://abs/api/libraries",
         headers := [("Authorization", "Bearer tok"), ("Content-Type", "application/json")],
         body := some (.jobj [("name", .jstr "A"),
           ("folders", .jarr [.jobj [("fullPath", .jstr "/a")],
                              .jobj [("fullPath", .jstr "/b")]]),
           ("mediaType", .jstr "book")]) }] ∧
    List.lookup "folders" (createLibraryPayload reqCreateLib "A" "/a, /b" "book") =
      some (.jarr [.jobj [("fullPath", .jstr "/a")], .jobj [("fullPath", .jstr "/b")]]) := by
  have h := create_library_splits_folders envEmpty worldOk reqCreateLib "http://abs/api"
    "tok" "A" "/a, /b" "book" rfl rfl rfl rfl
  exact ⟨h.1.trans rfl, h.2.trans rfl⟩

/-- C8: for every `update_progress` call with `item_id` and `progress`
present, the POSTed body always contains the item identifier and the elapsed
time; every body field is one of the five allowed keys, with `duration`
present only under a positive provided duration, `isFinished` present only
when the flag is true (and then with value `true`), and `episodeId` present
exactly when a non-empty episode identifier was supplied. -/
theorem update_progress_fields
    (env : String → String) (world : HttpRequest → HttpAnswer)
    (request : CallToolRequest) (baseURL token itemID : String) (progress : Rat)
    (hcfg : getABSConfig env request = .ok (baseURL, token))
    (hitem : request.RequireString "item_id" = .ok itemID)
    (hprog : request.RequireFloat "progress" = .ok progress) :
    (updateProgressHandler env world request).calls =
      [{ method := .POST, url := trimSuffix baseURL "/" ++ "/me/progress",
         headers := authHeaders token ++ [("Content-Type", "application/json")],
         body := some (.jobj (updateProgressPayload request itemID progress)) }] ∧
    List.lookup "libraryItemId" (updateProgressPayload request itemID progress) =
      some (.jstr itemID) ∧
    List.lookup "currentTime" (updateProgressPayload request itemID progress) =
      some (.jnum progress) ∧
    (∀ k v, (k, v) ∈ updateProgressPayload request itemID progress →
      (k = "libraryItemId" ∧ v = .jstr itemID) ∨
      (k = "currentTime" ∧ v = .jnum progress) ∨
      (0 < request.GetFloat "duration" 0 ∧ k = "duration" ∧
        v = .jnum (request.GetFloat "duration" 0)) ∨
      (request.GetBool "is_finished" false = true ∧ k = "isFinished" ∧ v = .jbool true) ∨
      (request.GetString "episode_id" "" ≠ "" ∧ k = "episodeId" ∧
        v = .jstr (request.GetString "episode_id" ""))) ∧
    (0 < request.GetFloat "duration" 0 →
      ∃ x, request.getArg "duration" = some (.vnum x) ∧ 0 < x) ∧
    (request.GetString "episode_id" "" ≠ "" →
      List.lookup "episodeId" (updateProgressPayload request itemID progress) =
        some (.jstr (request.GetString "episode_id" ""))) := by
  refine ⟨?_, ?_, ?_, ?_, fun h => getFloat_pos_means_provided request "duration" h, ?_⟩
  · unfold updateProgressHandler
    rw [hcfg]
    dsimp only
    rw [hitem]
    dsimp only
    rw [hprog]
    dsimp only
    rw [wrapResult_calls, absPOST_calls]
  · simp only [updateProgressPayload, List.append_assoc, List.cons_append]
    simp [List.lookup_cons]
  · simp only [updateProgressPayload, List.append_assoc, List.cons_append]
    simp [List.lookup_cons]
  · intro k v hv
    unfold updateProgressPayload at hv
    rcases List.mem_append.mp hv with hv | hv
    · rcases List.mem_append.mp hv with hv | hv
      · rcases List.mem_append.mp hv with hv | hv
        · rcases List.mem_cons.mp hv with h | hv
          · exact Or.inl ⟨congrArg Prod.fst h, congrArg Prod.snd h⟩
          rcases List.mem_cons.mp hv with h | hv
          · exact Or.inr (Or.inl ⟨congrArg Prod.fst h, congrArg Prod.snd h⟩)
          exact absurd hv (List.not_mem_nil _)
        · by_cases hdur : request.GetFloat "duration" 0 > 0
          · rw [if_pos hdur] at hv
            have h := List.mem_singleton.mp hv
            exact Or.inr (Or.inr (Or.inl
              ⟨hdur, congrArg Prod.fst h, congrArg Prod.snd h⟩))
          · rw [if_neg hdur] at hv
            exact absurd hv (List.not_mem_nil _)
      · by_cases hfin : request.GetBool "is_finished" false = true
        · rw [if_pos hfin] at hv
          have h := List.mem_singleton.mp hv
          exact Or.inr (Or.inr (Or.inr (Or.inl
            ⟨hfin, congrArg Prod.fst h, congrArg Prod.snd h⟩)))
        · rw [if_neg hfin] at hv
          exact absurd hv (List.not_mem_nil _)
    · by_cases hep : request.GetString "episode_id" "" ≠ ""
      · rw [if_pos hep] at hv
        have h := List.mem_singleton.mp hv
        exact Or.inr (Or.inr (Or.inr (Or.inr
          ⟨hep, congrArg Prod.fst h, congrArg Prod.snd h⟩)))
      · rw [if_neg hep] at hv
        exact absurd hv (List.not_mem_nil _)
  · intro hep
    simp only [updateProgressPayload, List.append_assoc, List.cons_append]
    rw [if_pos hep]
    split_ifs <;> simp [List.lookup_cons, List.lookup_append]

/-- Witness for C8: with item `it1`, progress 30, duration 100, finished
true and episode `ep7`, the POSTed body carries all five fields. -/
theorem update_progress_fields_witness :
    (updateProgressHandler envEmpty worldOk reqProgress).calls =
      [{ method := .POST, url := "http://abs/api/me/progress",
         headers := [("Authorization", "Bearer tok"), ("Content-Type", "application/json")],
         body := some (.jobj [("libraryItemId", .jstr "it1"), ("currentTime", .jnum 30),
           ("duration", .jnum 100), ("isFinished", .jbool true),
           ("episodeId", .jstr "ep7")]) }] :=
  ((update_progress_fields envEmpty worldOk reqProgress "http://abs/api" "tok" "it1" 30
    rfl rfl rfl).1).trans rfl

/-- C9: a `me` call in which no boolean sub-view flag is true and
`progress_item_id` resolves to the empty string takes the plain `/me` path —
a non-empty `progress_episode_id` is silently ignored because its branch is
nested inside the non-empty-item check. -/
theorem me_ignores_dangling_episode
    (env : String → String) (world : HttpRequest → HttpAnswer)
    (request : CallToolRequest) (baseURL token : String)
    (hcfg : getABSConfig env request = .ok (baseURL, token))
    (h1 : request.GetBool "listening-sessions" false = false)
    (h2 : request.GetBool "listening-stats" false = false)
    (h3 : request.GetBool "items-in-progress" false = false)
    (h4 : request.GetString "progress_item_id" "" = "") :
    mePath request = "/me" ∧
    (meHandler env world request).calls =
      [{ method := .GET, url := trimSuffix baseURL "/" ++ "/me",
         headers := authHeaders token, body := none }] := by
  have hpath : mePath request = "/me" := by
    simp [mePath, h1, h2, h3, h4]
  refine ⟨hpath, ?_⟩
  unfold meHandler
  rw [hcfg]
  dsimp only
  rw [wrapResult_calls, absGET_calls, hpath]

/-- Witness for C9: a `me` call whose only sub-view argument is
`progress_episode_id = ep9` requests exactly `/me`. -/
theorem me_ignores_dangling_episode_witness :
    reqMeEpisodeOnly.GetString "progress_episode_id" "" = "ep9" ∧
    (meHandler envEmpty worldOk reqMeEpisodeOnly).calls =
      [{ method := .GET, url := "http://abs/api/me",
         headers := [("Authorization", "Bearer tok")], body := none }] :=
  ⟨rfl, ((me_ignores_dangling_episode envEmpty worldOk reqMeEpisodeOnly "http://abs/api"
    "tok" rfl rfl rfl rfl rfl).2).trans rfl⟩

/-- C10: for every `create_library` call with the required arguments
present, the POSTed folder list is never empty — its length is one plus the
number of commas (so a blank segment between commas still contributes an
entry), and an all-whitespace folders value produces exactly one folder
object whose `fullPath` is the empty string. -/
theorem create_library_folder_list_never_empty
    (env : String → String) (world : HttpRequest → HttpAnswer)
    (request : CallToolRequest) (baseURL token name foldersStr mediaType : String)
    (hcfg : getABSConfig env request = .ok (baseURL, token))
    (hname : request.RequireString "name" = .ok name)
    (hfold : request.RequireString "folders" = .ok foldersStr)
    (hmedia : request.RequireString "media_type" = .ok mediaType) :
    (createLibraryHandler env world request).calls =
      [{ method := .POST, url := trimSuffix baseURL "/" ++ "/libraries",
         headers := authHeaders token ++ [("Content-Type", "application/json")],
         body := some (.jobj (createLibraryPayload request name foldersStr mediaType)) }] ∧
    libraryFolders foldersStr ≠ [] ∧
    (libraryFolders foldersStr).length = foldersStr.data.count ',' + 1 ∧
    (foldersStr.data.all Char.isWhitespace →
      libraryFolders foldersStr = [.jobj [("fullPath", .jstr "")]]) := by
  refine ⟨?_, ?_, ?_, ?_⟩
  · unfold createLibraryHandler
    rw [hcfg]
    dsimp only
    rw [hname]
    dsimp only
    rw [hfold]
    dsimp only
    rw [hmedia]
    dsimp only
    rw [wrapResult_calls, absPOST_calls]
  · simp [libraryFolders, goSplitComma, splitOnComma_ne_nil]
  · simp [libraryFolders, goSplitComma, splitOnComma_length]
  · intro hws
    have hnc : ∀ c ∈ foldersStr.data, c ≠ ',' := by
      intro c hc heq
      have hcw := List.all_eq_true.mp hws c hc
      rw [heq] at hcw
      exact absurd hcw (by decide)
    unfold libraryFolders goSplitComma
    rw [splitOnComma_no_comma foldersStr.data hnc]
    simp only [List.map_cons, List.map_nil]
    rw [show String.mk foldersStr.data = foldersStr from rfl]
    rw [goTrimSpace_all_whitespace foldersStr hws]

/-- Witness for C10: a whitespace-only folders value `"  "` yields exactly
one folder entry with empty `fullPath`. -/
theorem create_library_folder_list_never_empty_witness :
    reqCreateLibBlank.RequireString "folders" = .ok "  " ∧
    libraryFolders "  " = [.jobj [("fullPath", .jstr "")]] ∧
    (createLibraryHandler envEmpty worldOk reqCreateLibBlank).calls =
      [{ method := .POST, url := "http://abs/api/libraries",
         headers := [("Authorization", "Bearer tok"), ("Content-Type", "application/json")],
         body := some (.jobj [("name", .jstr "B"),
           ("folders", .jarr [.jobj [("fullPath", .jstr "")]]),
           ("mediaType", .jstr "book")]) }] := by
  have h := create_library_folder_list_never_empty envEmpty worldOk reqCreateLibBlank
    "http://abs/api" "tok" "B" "  " "book" rfl rfl rfl rfl
  exact ⟨rfl, h.2.2.2 (by decide), h.1.trans rfl⟩

end AbsMcp
